import Mathlib

/-!
Verification of the pyrust-check front-end: position translation
(`offset_to_line_col`), the parser adapter (`parse_source`, `parse_file`,
`convert_parse_error`), and the diagnostic / span rendering.

Source text is modelled as its sequence of characters (`List Char`); byte
offsets are recovered through each character's UTF-8 size, mirroring Rust's
`str::char_indices`. The external grammar parser (the `rustpython_parser`
crate) is treated as a black box per the spec: its outcome on a given call is
passed to the adapter as an explicit `Except` value.
-/

namespace PyrustCheck

/-- Model of `std::path::Path` / `PathBuf`: the path's textual form. -/
abbrev Path := String

/-- `str::char_indices` starting at byte index `i`: pairs each character with
its byte offset, advancing by the character's UTF-8 size. -/
def charIndices : Nat → List Char → List (Nat × Char)
  | _, [] => []
  | i, c :: cs => (i, c) :: charIndices (i + c.utf8Size) cs

/-- The `for (i, c) in source.char_indices()` loop of
`PythonParser::offset_to_line_col`: breaks at the first `i >= offset`,
otherwise bumps `line` and `last_line_start` at each newline. -/
def scanLoop (offset : Nat) : List (Nat × Char) → Nat → Nat → Nat × Nat
  | [], line, lastLineStart => (line, lastLineStart)
  | (i, c) :: rest, line, lastLineStart =>
    if offset ≤ i then (line, lastLineStart)
    else if c = '\n' then scanLoop offset rest (line + 1) (i + 1)
    else scanLoop offset rest line lastLineStart

/-- `PythonParser::offset_to_line_col` (src/parser/parser_impl.rs): returns
`(1, 0)` for offset 0, otherwise scans the character/byte-index pairs and
finishes with `offset.saturating_sub(last_line_start)` (Nat subtraction). -/
def offset_to_line_col (source : List Char) (offset : Nat) : Nat × Nat :=
  if offset = 0 then (1, 0)
  else
    let r := scanLoop offset (charIndices 0 source) 1 0
    (r.1, offset - r.2)

/-- Spec-side predicate: the character at byte index `p.1` is a line
terminator occurring strictly before `offset`. -/
def nlBefore (offset : Nat) (p : Nat × Char) : Bool :=
  decide (p.1 < offset) && decide (p.2 = '\n')

/-- Formalizes the spec's phrase "number of line terminators occurring
strictly before byte_offset". -/
def countNewlinesBefore (source : List Char) (offset : Nat) : Nat :=
  (charIndices 0 source).countP (nlBefore offset)

/-- Formalizes the spec's phrase "index just after the last terminator before
byte_offset" (0 when no terminator precedes the offset). -/
def lastTerminatorEnd (source : List Char) (offset : Nat) : Nat :=
  (charIndices 0 source).foldl
    (fun acc p => if nlBefore offset p then p.1 + 1 else acc) 0

/- ------------------------------------------------------------------
Data model: SourceLocation, SourceSpan, PyRustError (src/diagnostics/error.rs,
src/utils/span.rs), with their Display implementations as `render`.
------------------------------------------------------------------ -/

/-- `SourceLocation` (src/diagnostics/error.rs). -/
structure SourceLocation where
  file : Path
  line : Nat
  column : Nat
deriving DecidableEq, Repr

/-- `impl Display for SourceLocation`: format string `"{}:{}:{}"` applied to
`file.display()`, `line`, `column`. -/
def SourceLocation.render (loc : SourceLocation) : String :=
  loc.file ++ ":" ++ toString loc.line ++ ":" ++ toString loc.column

/-- A single apostrophe character (U+0027), used by the `UndefinedName`
format string. -/
def squote : String := String.singleton (Char.ofNat 39)

/-- `PyRustError` (src/diagnostics/error.rs). The `IoError` variant carries
the underlying `std::io::Error`, modelled by its Display string (the
operating-system-provided message); it has no location field. -/
inductive PyRustError where
  | parseError (location : SourceLocation) (message : String)
  | typeError (location : SourceLocation) (message : String)
  | ioError (err : String)
  | undefinedName (name : String) (location : SourceLocation)
deriving DecidableEq

/-- The `thiserror`-derived Display of `PyRustError`: the `#[error("...")]`
format string of each variant. -/
def PyRustError.render : PyRustError → String
  | .parseError location message =>
      "Parse error at " ++ location.render ++ ": " ++ message
  | .typeError location message =>
      "Type error at " ++ location.render ++ ": " ++ message
  | .ioError e => "IO error: " ++ e
  | .undefinedName name location =>
      "Undefined name " ++ squote ++ name ++ squote ++ " at " ++ location.render

/-- `SourceSpan` (src/utils/span.rs). -/
structure SourceSpan where
  file : Path
  start_line : Nat
  start_col : Nat
  end_line : Nat
  end_col : Nat
deriving DecidableEq, Repr

/-- `SourceSpan::unknown`. -/
def SourceSpan.unknown : SourceSpan :=
  { file := "<unknown>", start_line := 0, start_col := 0,
    end_line := 0, end_col := 0 }

/-- `impl Display for SourceSpan`: format string `"{}:{}:{}"` applied to
`file.display()`, `start_line`, `start_col`. -/
def SourceSpan.render (s : SourceSpan) : String :=
  s.file ++ ":" ++ toString s.start_line ++ ":" ++ toString s.start_col

/- ------------------------------------------------------------------
External grammar parser model (rustpython_parser, a black box per the spec:
"given text and an entry mode, returns a tree or a (byte-offset, message)
failure"). Only the AST fragment the adapter inspects is modelled.
------------------------------------------------------------------ -/

/-- `rustpython_parser::text_size::TextRange`; `TextRange::default()` is the
empty range at offset 0. `stop` models the `end` field. -/
structure TextRange where
  start : Nat
  stop : Nat
deriving DecidableEq, Repr

def TextRange.default : TextRange := { start := 0, stop := 0 }

/-- Fragment of `rustpython_parser::ast::Operator`. -/
inductive RPOperator where
  | add
  | sub
  | mult
  | div
deriving DecidableEq, Repr

/-- Fragment of `rustpython_parser::ast::Expr` (the external parser's
expression tree): binary operation, integer constant, name reference. -/
inductive RPExpr where
  | binOp (range : TextRange) (left : RPExpr) (op : RPOperator) (right : RPExpr)
  | constantInt (range : TextRange) (value : Int)
  | name (range : TextRange) (id : String)
deriving DecidableEq, Repr

/-- The `range` field common to all external expression nodes. -/
def RPExpr.range : RPExpr → TextRange
  | .binOp r _ _ _ => r
  | .constantInt r _ => r
  | .name r _ => r

/-- Fragment of `rustpython_parser::ast::Stmt`: the `Stmt::Expr(StmtExpr
{range, value})` variant the adapter synthesizes. -/
inductive RPStmt where
  | exprStmt (range : TextRange) (value : RPExpr)
deriving DecidableEq, Repr

/-- `rustpython_parser::ast::Mod`: the external parser's top-level result for
each entry mode. -/
inductive Mod where
  | module (body : List RPStmt)
  | interactive (body : List RPStmt)
  | expression (body : RPExpr)
  | functionType
deriving DecidableEq, Repr

/-- The external parser's failure value: `error.offset.to_usize()` and
`error.error.to_string()`. -/
structure ParseErrorExt where
  offset : Nat
  message : String
deriving DecidableEq, Repr

/- ------------------------------------------------------------------
Parser adapter (src/parser/parser_impl.rs). The external parser call and the
file-system read are the two effects; each is passed in as its outcome.
------------------------------------------------------------------ -/

/-- `PythonParser::convert_parse_error`. -/
def convert_parse_error (error : ParseErrorExt) (source : List Char)
    (path : Path) : PyRustError :=
  let lc := offset_to_line_col source error.offset
  .parseError { file := path, line := lc.1, column := lc.2 } error.message

/-- The `match parsed` arm of `PythonParser::parse_source`: `Mod::Module`
returns the body verbatim; `Mod::Expression` wraps the expression in a
`Stmt::Expr` with `TextRange::default()`; other variants give `[]`. -/
def handleMod : Mod → List RPStmt
  | .module body => body
  | .expression e => [RPStmt.exprStmt TextRange.default e]
  | .interactive _ => []
  | .functionType => []

/-- `PythonParser::parse_source`, with the external parser's outcome on
`(source, Mode::Module, path)` passed in as `ext`. -/
def parse_source (ext : Except ParseErrorExt Mod) (source : List Char)
    (path : Path) : Except PyRustError (List RPStmt) :=
  match ext with
  | .error e => .error (convert_parse_error e source path)
  | .ok m => .ok (handleMod m)

/-- `PythonParser::parse_file`, with the outcome of
`fs::read_to_string(path)` passed in as `readResult` (the error side is the
OS error's message) and the external parser's outcome as `ext`. -/
def parse_file (readResult : Except String (List Char))
    (ext : Except ParseErrorExt Mod) (path : Path) :
    Except PyRustError (List RPStmt) :=
  match readResult with
  | .error e => .error (.ioError e)
  | .ok source => parse_source ext source path

/- ------------------------------------------------------------------
Modelled external-parser outcomes (behavior of the black-box grammar parser
on specific inputs, taken from the spec and the repository's tests).
------------------------------------------------------------------ -/

/-- Modelled from the spec: missing external behavior — the grammar parser in
module entry mode on the empty source succeeds with an empty statement list
(spec section 8 and the repository test `test_empty_file`). -/
def extParseEmpty : Except ParseErrorExt Mod := Except.ok (Mod.module [])

/-- Modelled from the spec: missing external behavior — the grammar parser in
single-expression entry mode on source `"1 + 2"` yields a binary-operation
expression (spec section 8); the operation spans bytes 0..5 with its integer
literals at 0..1 and 4..5. -/
def extExprOnePlusTwo : Except ParseErrorExt Mod :=
  Except.ok (Mod.expression (RPExpr.binOp { start := 0, stop := 5 }
    (RPExpr.constantInt { start := 0, stop := 1 } 1) RPOperator.add
    (RPExpr.constantInt { start := 4, stop := 5 } 2)))

lemma charIndices_ge (s : List Char) :
    ∀ (i : Nat), ∀ p ∈ charIndices i s, i ≤ p.1 := by
  induction s with
  | nil => intro i p hp; simp [charIndices] at hp
  | cons c cs ih =>
    intro i p hp
    simp only [charIndices, List.mem_cons] at hp
    rcases hp with rfl | hp
    · exact le_refl _
    · exact le_trans (Nat.le_add_right i c.utf8Size) (ih _ p hp)

lemma charIndices_pairwise (s : List Char) (i : Nat) :
    (charIndices i s).Pairwise fun p q => p.1 ≤ q.1 := by
  induction s generalizing i with
  | nil => simp [charIndices]
  | cons c cs ih =>
    simp only [charIndices, List.pairwise_cons]
    exact ⟨fun q hq =>
      le_trans (Nat.le_add_right i c.utf8Size) (charIndices_ge cs _ q hq), ih _⟩

lemma foldl_nlBefore_const (offset : Nat) :
    ∀ (l : List (Nat × Char)) (last : Nat),
      (∀ p ∈ l, nlBefore offset p = false) →
      l.foldl (fun acc p => if nlBefore offset p then p.1 + 1 else acc) last
        = last := by
  intro l
  induction l with
  | nil => intro last _; rfl
  | cons p rest ih =>
    intro last h
    simp only [List.foldl_cons, h p (List.mem_cons_self p rest), Bool.false_eq_true,
      if_false]
    exact ih last fun q hq => h q (List.mem_cons_of_mem _ hq)

lemma scanLoop_spec (offset : Nat) :
    ∀ (l : List (Nat × Char)) (line last : Nat),
      l.Pairwise (fun p q => p.1 ≤ q.1) →
      scanLoop offset l line last =
        (line + l.countP (nlBefore offset),
         l.foldl (fun acc p => if nlBefore offset p then p.1 + 1 else acc) last)
  := by
  intro l
  induction l with
  | nil => intro line last _; simp [scanLoop]
  | cons p rest ih =>
    intro line last hpw
    obtain ⟨i, c⟩ := p
    rw [List.pairwise_cons] at hpw
    by_cases hio : offset ≤ i
    · have hall : ∀ q ∈ (i, c) :: rest, nlBefore offset q = false := by
        intro q hq
        rcases List.mem_cons.1 hq with rfl | hq
        · simp [nlBefore, Nat.not_lt.2 hio]
        · have : offset ≤ q.1 := le_trans hio (hpw.1 q hq)
          simp [nlBefore, Nat.not_lt.2 this]
      have hcount : ((i, c) :: rest).countP (nlBefore offset) = 0 := by
        rw [List.countP_eq_zero]
        intro q hq
        simp [hall q hq]
      rw [hcount, foldl_nlBefore_const offset _ last hall]
      simp [scanLoop, hio]
    · have hlt : i < offset := Nat.lt_of_not_le hio
      by_cases hc : c = '\n'
      · have hnl : nlBefore offset (i, c) = true := by
          simp [nlBefore, hlt, hc]
        rw [List.countP_cons, List.foldl_cons]
        simp only [hnl, if_true]
        rw [scanLoop, if_neg hio, if_pos hc, ih (line + 1) (i + 1) hpw.2]
        simp only [Prod.mk.injEq]
        exact ⟨by omega, trivial⟩
      · have hnl : nlBefore offset (i, c) = false := by
          simp [nlBefore, hc]
        rw [List.countP_cons, List.foldl_cons]
        simp only [hnl, Bool.false_eq_true, if_false]
        rw [scanLoop, if_neg hio, if_neg hc, ih line last hpw.2]
        simp

lemma charIndices_mem_snd (s : List Char) :
    ∀ (i : Nat), ∀ p ∈ charIndices i s, p.2 ∈ s := by
  induction s with
  | nil => intro i p hp; simp [charIndices] at hp
  | cons c cs ih =>
    intro i p hp
    simp only [charIndices, List.mem_cons] at hp
    rcases hp with rfl | hp
    · exact List.mem_cons_self _ _
    · exact List.mem_cons_of_mem _ (ih _ p hp)

lemma offset_to_line_col_eq (s : List Char) (o : Nat) (ho : o ≠ 0) :
    offset_to_line_col s o =
      (1 + countNewlinesBefore s o, o - lastTerminatorEnd s o) := by
  rw [offset_to_line_col, if_neg ho,
    scanLoop_spec o (charIndices 0 s) 1 0 (charIndices_pairwise s 0)]
  rfl

lemma line_eq_one_of_no_newline (s : List Char) (o : Nat) (h : '\n' ∉ s) :
    (offset_to_line_col s o).1 = 1 := by
  by_cases ho : o = 0
  · simp [offset_to_line_col, ho]
  · rw [offset_to_line_col_eq s o ho]
    have : countNewlinesBefore s o = 0 := by
      rw [countNewlinesBefore, List.countP_eq_zero]
      intro p hp
      have hmem := charIndices_mem_snd s 0 p hp
      have : p.2 ≠ '\n' := fun hc => h (hc ▸ hmem)
      simp [nlBefore, this]
    simp [this]

/- ------------------------------------------------------------------
Claim theorems.
------------------------------------------------------------------ -/

/-- Claim C1: `offset_to_line_col` satisfies the translation contract: offset
0 yields (1, 0); otherwise the line is 1 plus the number of line terminators
strictly before the offset, and the column is the offset minus the index just
after the last terminator before it, clamped to 0 (Nat subtraction). -/
theorem offset_to_line_col_contract (s : List Char) (o : Nat) :
    offset_to_line_col s o =
      if o = 0 then (1, 0)
      else (1 + countNewlinesBefore s o, o - lastTerminatorEnd s o) := by
  by_cases ho : o = 0
  · simp [offset_to_line_col, ho]
  · rw [if_neg ho]
    exact offset_to_line_col_eq s o ho

/-- Claim C5: `offset_to_line_col` is total: for every source text and every
byte offset (including offsets inside a multi-byte character or past the end
of the text) it returns a (line, column) pair, and the line is at least 1. -/
theorem offset_to_line_col_total (s : List Char) (o : Nat) :
    ∃ lc : Nat × Nat, offset_to_line_col s o = lc ∧ 1 ≤ lc.1 := by
  refine ⟨offset_to_line_col s o, rfl, ?_⟩
  by_cases ho : o = 0
  · simp [offset_to_line_col, ho]
  · rw [offset_to_line_col_eq s o ho]
    exact Nat.le_add_right 1 _

/-- Claim C2: when the external parser fails, `parse_source` returns a
ParseError whose message is the external message, whose location translates
the external byte offset via `offset_to_line_col`, and whose file is the
`path` argument; no statement sequence accompanies the failure. On the source
`"def invalid syntax"` the reported line is 1 for any failure offset. -/
theorem parse_source_failure (source : List Char) (path : Path)
    (ext : Except ParseErrorExt Mod) (err : ParseErrorExt)
    (h : ext = Except.error err) :
    parse_source ext source path =
      Except.error (PyRustError.parseError
        { file := path,
          line := (offset_to_line_col source err.offset).1,
          column := (offset_to_line_col source err.offset).2 }
        err.message) ∧
    (source = "def invalid syntax".toList →
      (offset_to_line_col source err.offset).1 = 1) := by
  subst h
  refine ⟨rfl, ?_⟩
  intro hs
  subst hs
  exact line_eq_one_of_no_newline _ _ (by decide)

theorem parse_source_failure_witness :
    parse_source (Except.error { offset := 4, message := "invalid syntax" })
        "def invalid syntax".toList "test.py" =
      Except.error (PyRustError.parseError
        { file := "test.py", line := 1, column := 4 } "invalid syntax") := by
  have h := (parse_source_failure "def invalid syntax".toList "test.py"
    (Except.error { offset := 4, message := "invalid syntax" })
    { offset := 4, message := "invalid syntax" } rfl).1
  have he : offset_to_line_col "def invalid syntax".toList 4 = (1, 4) := by
    decide
  rw [h, he]

/-- Claim C3 counterexample: the UndefinedName variant does not render in the
shape "<Kind> error at <file>:<line>:<column>: <message>" — its rendering at
a concrete input does not even contain the segment " error at ". -/
theorem undefinedName_render_counterexample :
    PyRustError.render (PyRustError.undefinedName "x"
        { file := "a.py", line := 1, column := 2 }) =
      "Undefined name " ++ squote ++ "x" ++ squote ++ " at a.py:1:2" ∧
    ¬ (" error at ".toList <:+:
        (PyRustError.render (PyRustError.undefinedName "x"
          { file := "a.py", line := 1, column := 2 })).toList) := by
  exact ⟨rfl, by decide⟩

/-- Claim C3 (amended): ParseError and TypeError render as
"<Kind> error at <file>:<line>:<column>: <message>"; UndefinedName renders as
"Undefined name " followed by the quoted name and " at <file>:<line>:<column>"
with no trailing message; IoError renders "IO error: " followed by the
operating-system-provided message, with no location. -/
theorem render_shapes (loc : SourceLocation) (msg name osErr : String) :
    PyRustError.render (PyRustError.parseError loc msg) =
      "Parse" ++ " error at " ++ loc.file ++ ":" ++ toString loc.line ++ ":"
        ++ toString loc.column ++ ": " ++ msg ∧
    PyRustError.render (PyRustError.typeError loc msg) =
      "Type" ++ " error at " ++ loc.file ++ ":" ++ toString loc.line ++ ":"
        ++ toString loc.column ++ ": " ++ msg ∧
    PyRustError.render (PyRustError.undefinedName name loc) =
      "Undefined name " ++ squote ++ name ++ squote ++ " at " ++ loc.render ∧
    SourceLocation.render loc =
      loc.file ++ ":" ++ toString loc.line ++ ":" ++ toString loc.column ∧
    PyRustError.render (PyRustError.ioError osErr) = "IO error: " ++ osErr :=
  ⟨rfl, rfl, rfl, rfl, rfl⟩

/-- Claim C4 counterexample: on the modelled single-expression result for
"1 + 2", the synthesized wrapper statement carries `TextRange.default`
(0..0), which differs from the span of its sole child (0..5): the claim that
the wrapper uses the span of its sole child is false. -/
theorem expression_wrapper_span_counterexample :
    parse_source extExprOnePlusTwo "1 + 2".toList "a.py" =
      Except.ok [RPStmt.exprStmt TextRange.default
        (RPExpr.binOp { start := 0, stop := 5 }
          (RPExpr.constantInt { start := 0, stop := 1 } 1) RPOperator.add
          (RPExpr.constantInt { start := 4, stop := 5 } 2))] ∧
    TextRange.default ≠
      (RPExpr.binOp { start := 0, stop := 5 }
        (RPExpr.constantInt { start := 0, stop := 1 } 1) RPOperator.add
        (RPExpr.constantInt { start := 4, stop := 5 } 2)).range :=
  ⟨rfl, by decide⟩

/-- Claim C4 (amended): when the external parser's result is the
single-expression form, `parse_source` wraps the expression in a synthetic
expression-statement and returns a one-element sequence; the wrapper carries
the default empty text range (0..0), not the span of its sole child. On the
modelled "1 + 2" expression result this yields exactly one statement wrapping
a binary-operation expression. -/
theorem expression_mode_wraps (e : RPExpr) (s : List Char) (p : Path) :
    parse_source (Except.ok (Mod.expression e)) s p =
      Except.ok [RPStmt.exprStmt TextRange.default e] ∧
    parse_source extExprOnePlusTwo "1 + 2".toList "a.py" =
      Except.ok [RPStmt.exprStmt TextRange.default
        (RPExpr.binOp { start := 0, stop := 5 }
          (RPExpr.constantInt { start := 0, stop := 1 } 1) RPOperator.add
          (RPExpr.constantInt { start := 4, stop := 5 } 2))] :=
  ⟨rfl, rfl⟩

/-- Claim C6: any ParseError returned by `parse_source` or `parse_file` for a
given `path` argument carries a location whose file field is exactly that
path, with no alteration. -/
theorem parse_location_file_eq_path (ext : Except ParseErrorExt Mod)
    (source : List Char) (readResult : Except String (List Char)) (path : Path)
    (loc : SourceLocation) (msg : String) :
    (parse_source ext source path =
        Except.error (PyRustError.parseError loc msg) → loc.file = path) ∧
    (parse_file readResult ext path =
        Except.error (PyRustError.parseError loc msg) → loc.file = path) := by
  have key : ∀ (s2 : List Char),
      parse_source ext s2 path =
        Except.error (PyRustError.parseError loc msg) → loc.file = path := by
    intro s2 h
    cases ext with
    | ok m => simp [parse_source] at h
    | error e =>
      simp only [parse_source, convert_parse_error, Except.error.injEq,
        PyRustError.parseError.injEq] at h
      rw [← h.1]
  refine ⟨key source, ?_⟩
  intro h
  cases readResult with
  | error e => simp [parse_file] at h
  | ok s2 => exact key s2 h

theorem parse_location_file_eq_path_witness :
    (SourceLocation.mk "a.py" 1 0).file = "a.py" :=
  (parse_location_file_eq_path (Except.error { offset := 0, message := "m" })
    "".toList (Except.ok "".toList) "a.py"
    { file := "a.py", line := 1, column := 0 } "m").1 rfl

/-- Claim C7: `parse_file` fails with an IoError carrying the underlying OS
error (and no location) whenever the read fails, and on a successful read
returns exactly the result of `parse_source` on the decoded text and the same
path. -/
theorem parse_file_spec (readResult : Except String (List Char))
    (ext : Except ParseErrorExt Mod) (path : Path) :
    (∀ e, readResult = Except.error e →
      parse_file readResult ext path = Except.error (PyRustError.ioError e)) ∧
    (∀ source, readResult = Except.ok source →
      parse_file readResult ext path = parse_source ext source path) := by
  constructor
  · intro e he
    subst he
    rfl
  · intro s hs
    subst hs
    rfl

theorem parse_file_spec_witness :
    parse_file (Except.error "no such file") (Except.ok (Mod.module []))
        "a.py" =
      Except.error (PyRustError.ioError "no such file") :=
  (parse_file_spec (Except.error "no such file") (Except.ok (Mod.module []))
    "a.py").1 "no such file" rfl

/-- Claim C8: `parse_source` and `offset_to_line_col` are deterministic and
pure: identical arguments (including an identical outcome of the read-only
external grammar parser) yield structurally identical results; the embedding
performs no I/O. -/
theorem parse_deterministic (exta extb : Except ParseErrorExt Mod)
    (sa sb : List Char) (pa pb : Path) (oa ob : Nat)
    (hext : exta = extb) (hs : sa = sb) (hp : pa = pb) (ho : oa = ob) :
    parse_source exta sa pa = parse_source extb sb pb ∧
    offset_to_line_col sa oa = offset_to_line_col sb ob := by
  subst hext
  subst hs
  subst hp
  subst ho
  exact ⟨rfl, rfl⟩

theorem parse_deterministic_witness :
    parse_source (Except.ok (Mod.module [])) "x = 1".toList "a.py" =
      parse_source (Except.ok (Mod.module [])) "x = 1".toList "a.py" ∧
    offset_to_line_col "x = 1".toList 3 = offset_to_line_col "x = 1".toList 3 :=
  parse_deterministic (Except.ok (Mod.module [])) (Except.ok (Mod.module []))
    "x = 1".toList "x = 1".toList "a.py" "a.py" 3 3 rfl rfl rfl rfl

/-- Claim C9: `parse_source` on the empty source (with the modelled external
outcome: an empty module) succeeds and returns an empty statement sequence,
for every path argument. -/
theorem parse_source_empty (path : Path) :
    parse_source extParseEmpty "".toList path = Except.ok [] := rfl

/-- Claim C10: the rendering of a SourceSpan uses only the file, start_line
and start_col fields — the end fields never affect the output — and the
`unknown` sentinel renders as "<unknown>:0:0", textually indistinguishable
from a genuine location. -/
theorem span_render_start_only (sp : SourceSpan) (f : Path)
    (a b c1 d1 c2 d2 : Nat) :
    SourceSpan.render sp =
      sp.file ++ ":" ++ toString sp.start_line ++ ":"
        ++ toString sp.start_col ∧
    SourceSpan.render (SourceSpan.mk f a b c1 d1) =
      SourceSpan.render (SourceSpan.mk f a b c2 d2) ∧
    SourceSpan.render SourceSpan.unknown = "<unknown>:0:0" :=
  ⟨rfl, rfl, rfl⟩

end PyrustCheck
